import Mathlib

/-!
Verification of the hand-sign translator (`script.js`).

The development shallowly embeds the two cores of the program:

* the temporal debounce / commit state machine of `onResults`
  (lines 20-24, 37-45, 206-224 of `script.js`), and
* the geometric classifier `isExtended` / `classifyLetterGesture`
  (lines 52-167 of `script.js`).

JavaScript numbers are modelled as rationals.  The source computes
`Math.sqrt` of a sum of squares and only ever compares the result with a
nonnegative multiple of another such square root (or with a nonnegative
constant), so the executable definitions carry squared distances and compare
them with squared thresholds; `distanceR` is the literal real-valued distance
of the source, and the bridge lemmas `distanceR_mul_lt_distanceR` and
`distanceR_lt_const` prove that the two formulations agree.
-/

namespace HandSign

/-- The closed alphabet of classifications: the five target letters plus
`unknown`, the model of the source's `'?'`. -/
inductive Symbol where
  | A
  | B
  | C
  | F
  | L
  | unknown
deriving DecidableEq, Repr

/-- The character a symbol appends to the transcript (the source appends the
classified sign, a one-character string, to `currentTranslation`). -/
def Symbol.toChar : Symbol → Char
  | .A => 'A'
  | .B => 'B'
  | .C => 'C'
  | .F => 'F'
  | .L => 'L'
  | .unknown => '?'

/-- The module-level translation state of `script.js` lines 21-23:
`currentTranslation`, `lastSign`, `stabilityCount`. -/
structure TranslationState where
  currentTranslation : List Char
  lastSign : Symbol
  stabilityCount : Nat
deriving DecidableEq, Repr

/-- The initial values of the three globals (`script.js` lines 21-23):
empty transcript, `lastSign = '?'`, `stabilityCount = 0`. -/
def initialState : TranslationState := ⟨[], Symbol.unknown, 0⟩

/-- The constant `STABILITY_THRESHOLD` (`script.js` line 24). -/
def STABILITY_THRESHOLD : Nat := 20

/-- The per-frame status outcome.  The source writes a message to
`statusElement` in the commit branch, the sign-changed branch and the no-hand
branch; `holding` is the same-sign-below-threshold branch (spec status
"Holding") and `idle` is the branch where a present hand classifies as `'?'`
while `lastSign` is already `'?'` (the source writes nothing there). -/
inductive Status where
  | noHand
  | holding
  | changed (s : Symbol)
  | committed (c : Char)
  | idle
deriving DecidableEq, Repr

/-- Boolean test for a commit status. -/
def Status.isCommitted : Status → Bool
  | .committed _ => true
  | _ => false

/-- The translation debounce logic of `onResults` for a frame in which a hand
is present and classifies as `sign` (`script.js` lines 206-218):

* `classifiedSign !== '?' && classifiedSign === lastSign`: increment
  `stabilityCount`; if the incremented count equals `STABILITY_THRESHOLD`,
  append the sign to the transcript, pin the count to `1` and report a commit,
  otherwise keep holding;
* `classifiedSign !== lastSign`: record the new sign and reset the count to 0;
* otherwise (`sign` and `lastSign` both `'?'`): no state change. -/
def onResultsHand (st : TranslationState) (sign : Symbol) : TranslationState × Status :=
  if sign ≠ Symbol.unknown ∧ sign = st.lastSign then
    if st.stabilityCount + 1 = STABILITY_THRESHOLD then
      ({ st with
          currentTranslation := st.currentTranslation ++ [sign.toChar],
          stabilityCount := 1 },
        Status.committed sign.toChar)
    else
      ({ st with stabilityCount := st.stabilityCount + 1 }, Status.holding)
  else if sign ≠ st.lastSign then
    ({ st with lastSign := sign, stabilityCount := 0 }, Status.changed sign)
  else
    (st, Status.idle)

/-- The no-hand branch of `onResults` (`script.js` lines 220-224 and 227-228):
reset `lastSign` to `'?'` and `stabilityCount` to 0; the transcript is not
touched. -/
def onResultsNoHand (st : TranslationState) : TranslationState × Status :=
  ({ st with lastSign := Symbol.unknown, stabilityCount := 0 }, Status.noHand)

/-- The reset `clearTranslation` (`script.js` lines 37-45): empty the transcript, set
`lastSign = '?'` and `stabilityCount = 0`, whatever the previous state was. -/
def clearTranslation (_ : TranslationState) : TranslationState :=
  ⟨[], Symbol.unknown, 0⟩

/-- Feed a sequence of per-frame classifications (all with a hand present)
through the debounce logic, collecting the per-frame statuses in order. -/
def runUpdates : TranslationState → List Symbol → TranslationState × List Status
  | st, [] => (st, [])
  | st, sign :: rest =>
    let r := onResultsHand st sign
    let rr := runUpdates r.1 rest
    (rr.1, r.2 :: rr.2)

/-- States reachable from the initial state by frames (hand present or not)
and explicit clears. -/
inductive Reachable : TranslationState → Prop where
  | init : Reachable initialState
  | handStep (st : TranslationState) (sign : Symbol) :
      Reachable st → Reachable (onResultsHand st sign).1
  | noHandStep (st : TranslationState) :
      Reachable st → Reachable (onResultsNoHand st).1
  | clearStep (st : TranslationState) :
      Reachable st → Reachable (clearTranslation st)

/-- The debounce invariant: a positive streak counter means the last sign is a
real sign, never `'?'`. -/
def StabilityInv (st : TranslationState) : Prop :=
  0 < st.stabilityCount → st.lastSign ≠ Symbol.unknown

/-- A MediaPipe landmark: a 3-D point in normalized coordinates.  JavaScript
numbers are modelled as rationals. -/
structure Landmark where
  x : ℚ
  y : ℚ
  z : ℚ
deriving DecidableEq, Repr

/-- The squared Euclidean distance: the sum of squares under the `Math.sqrt`
of `distance` (`script.js` lines 52-54).  The source only ever compares a
distance with a nonnegative multiple of another distance or with a
nonnegative constant, so the executable classifier carries squared distances
and squared thresholds; `distanceR` below is the literal square-rooted
distance, and `mul_distanceR_lt_distanceR` / `distanceR_lt_const` prove that
the two formulations of every comparison agree. -/
def distanceSq (p1 p2 : Landmark) : ℚ :=
  (p1.x - p2.x) ^ 2 + (p1.y - p2.y) ^ 2 + (p1.z - p2.z) ^ 2

/-- The Euclidean `distance` of `script.js` lines 52-54, literally:
`Math.sqrt` of the sum of coordinate squares. -/
noncomputable def distanceR (p1 p2 : Landmark) : ℝ :=
  Real.sqrt (distanceSq p1 p2)

/-- The table `LANDMARK_INDICES` (`script.js` lines 4-11). -/
def WRIST : Nat := 0

def THUMB_CMC : Nat := 1

def THUMB_MCP : Nat := 2

def THUMB_PIP : Nat := 3

def THUMB_TIP : Nat := 4

def INDEX_MCP : Nat := 5

def INDEX_PIP : Nat := 6

def INDEX_DIP : Nat := 7

def INDEX_TIP : Nat := 8

def MIDDLE_MCP : Nat := 9

def MIDDLE_PIP : Nat := 10

def MIDDLE_DIP : Nat := 11

def MIDDLE_TIP : Nat := 12

def RING_MCP : Nat := 13

def RING_PIP : Nat := 14

def RING_DIP : Nat := 15

def RING_TIP : Nat := 16

def PINKY_MCP : Nat := 17

def PINKY_PIP : Nat := 18

def PINKY_DIP : Nat := 19

def PINKY_TIP : Nat := 20

/-- The five finger-index arrays `THUMB`, `INDEX_FINGER`, `MIDDLE_FINGER`,
`RING_FINGER`, `PINKY_FINGER` (`script.js` lines 14-18); the source's
reference comparison `finger === THUMB` becomes a match on this tag. -/
inductive Finger where
  | thumb
  | index
  | middle
  | ring
  | pinky
deriving DecidableEq, Repr

/-- The four landmark indices of each finger array (`script.js` lines 14-18).
Note that for the thumb the first entry is `THUMB_CMC`, not an MCP: the
source's `isExtended` binds `mcp = landmarks[finger[0]]`, so for the thumb
that local variable actually holds the CMC landmark. -/
def fingerIndices : Finger → Nat × Nat × Nat × Nat
  | Finger.thumb => (THUMB_CMC, THUMB_MCP, THUMB_PIP, THUMB_TIP)
  | Finger.index => (INDEX_MCP, INDEX_PIP, INDEX_DIP, INDEX_TIP)
  | Finger.middle => (MIDDLE_MCP, MIDDLE_PIP, MIDDLE_DIP, MIDDLE_TIP)
  | Finger.ring => (RING_MCP, RING_PIP, RING_DIP, RING_TIP)
  | Finger.pinky => (PINKY_MCP, PINKY_PIP, PINKY_DIP, PINKY_TIP)

/-- A hand: exactly 21 landmarks, one named field per entry of
`LANDMARK_INDICES`. -/
structure Hand where
  wrist : Landmark
  thumbCmc : Landmark
  thumbMcp : Landmark
  thumbPip : Landmark
  thumbTip : Landmark
  indexMcp : Landmark
  indexPip : Landmark
  indexDip : Landmark
  indexTip : Landmark
  middleMcp : Landmark
  middlePip : Landmark
  middleDip : Landmark
  middleTip : Landmark
  ringMcp : Landmark
  ringPip : Landmark
  ringDip : Landmark
  ringTip : Landmark
  pinkyMcp : Landmark
  pinkyPip : Landmark
  pinkyDip : Landmark
  pinkyTip : Landmark
deriving DecidableEq, Repr

/-- The four landmarks of a finger, in the order of its index array: the
landmarks of a `Hand` at the positions `fingerIndices` names. -/
def fingerLandmarks (h : Hand) : Finger → Landmark × Landmark × Landmark × Landmark
  | Finger.thumb => (h.thumbCmc, h.thumbMcp, h.thumbPip, h.thumbTip)
  | Finger.index => (h.indexMcp, h.indexPip, h.indexDip, h.indexTip)
  | Finger.middle => (h.middleMcp, h.middlePip, h.middleDip, h.middleTip)
  | Finger.ring => (h.ringMcp, h.ringPip, h.ringDip, h.ringTip)
  | Finger.pinky => (h.pinkyMcp, h.pinkyPip, h.pinkyDip, h.pinkyTip)

/-- The finger test `isExtended` (`script.js` lines 61-85).  The local `mcp`, `pip`, `tip`
bind `landmarks[finger[0]]`, `landmarks[finger[1]]`, `landmarks[finger[3]]`.
For the thumb, `finger[0]` is `THUMB_CMC`, so `mcp` holds the CMC landmark:
`distFromCmcToMcp = distance(landmarks[THUMB[0]], mcp)` is the distance from
the CMC landmark to itself (always 0), and `isTipForward` compares `tip.z`
with the CMC's z — the code's comment ("distance from CMC to Tip is
substantially greater than CMC to MCP") describes a different computation.
The comparison `distFromCmcToTip > distFromCmcToMcp * 1.5` is carried in
squared form. -/
def isExtended (h : Hand) (finger : Finger) : Bool :=
  let mcp := (fingerLandmarks h finger).1
  let pip := (fingerLandmarks h finger).2.1
  let tip := (fingerLandmarks h finger).2.2.2
  match finger with
  | Finger.thumb =>
    let isTipForward := decide (tip.z < mcp.z)
    let distSqFromCmcToTip := distanceSq h.thumbCmc tip
    let distSqFromCmcToMcp := distanceSq h.thumbCmc mcp
    decide (distSqFromCmcToTip > distSqFromCmcToMcp * (1.5 : ℚ) ^ 2) && isTipForward
  | _ => decide (pip.y > tip.y) && decide (mcp.y > tip.y)

/-- The classifier `classifyLetterGesture` (`script.js` lines 90-167) on a well-formed hand
of exactly 21 landmarks: the ordered decision list L, F, B, C, A, `'?'`.
Each early `return` of the source's nested guards is flattened into one
guard conjunction per rule; thresholds are squared against the squared
distances. -/
def classifyLetterGesture (h : Hand) : Symbol :=
  let thumbExtended := isExtended h Finger.thumb
  let indexExtended := isExtended h Finger.index
  let middleExtended := isExtended h Finger.middle
  let ringExtended := isExtended h Finger.ring
  let pinkyExtended := isExtended h Finger.pinky
  let indexCurled := !indexExtended
  let middleCurled := !middleExtended
  let ringCurled := !ringExtended
  let pinkyCurled := !pinkyExtended
  let allCurled := indexCurled && middleCurled && ringCurled && pinkyCurled
  let fourFingersExtended := indexExtended && middleExtended && ringExtended && pinkyExtended
  let handSizeSq := distanceSq h.wrist h.pinkyMcp
  let tipDistSq := distanceSq h.indexTip h.pinkyTip
  if thumbExtended && indexExtended && middleCurled && ringCurled && pinkyCurled then
    Symbol.L
  else
    let pinchSqF := distanceSq h.thumbTip h.indexTip
    if decide (pinchSqF < (0.08 : ℚ) ^ 2) && middleExtended && ringExtended && pinkyExtended then
      Symbol.F
    else if fourFingersExtended
        && decide (distanceSq h.thumbTip h.indexMcp < handSizeSq * (0.25 : ℚ) ^ 2) then
      Symbol.B
    else if allCurled && decide (tipDistSq > handSizeSq * (0.5 : ℚ) ^ 2)
        && decide (distanceSq h.thumbTip h.indexMcp > handSizeSq * (0.15 : ℚ) ^ 2) then
      Symbol.C
    else if allCurled then
      Symbol.A
    else
      Symbol.unknown

/-- Array access `landmarks[i]` followed by a property read: JavaScript
yields `undefined` for an out-of-range index and throws a TypeError at the
`.x`/`.y`/`.z` access.  The model raises at the read; this is observationally
equal because on every path of `classifyLetterGesture` where some read is out
of range, a read at an index at least as large is dereferenced before the
frame completes (for the thumb, `pip = landmarks[2]` is never dereferenced,
but any list missing index 2 also misses index 4, whose `.z` is read). -/
def getLm (l : List Landmark) (i : Nat) : Except Unit Landmark :=
  match l[i]? with
  | some p => Except.ok p
  | none => Except.error ()

/-- The finger test `isExtended` under JavaScript evaluation semantics on a raw landmark
array: the three array reads of the source, then the branch on the finger
tag.  For the thumb `landmarks[THUMB[0]]` is read again for the two distance
calls. -/
def isExtendedE (l : List Landmark) (finger : Finger) : Except Unit Bool := do
  let mcp ← getLm l (fingerIndices finger).1
  let pip ← getLm l (fingerIndices finger).2.1
  let tip ← getLm l (fingerIndices finger).2.2.2
  match finger with
  | Finger.thumb => do
    let cmc ← getLm l THUMB_CMC
    pure (decide (distanceSq cmc tip > distanceSq cmc mcp * (1.5 : ℚ) ^ 2)
      && decide (tip.z < mcp.z))
  | _ => pure (decide (pip.y > tip.y) && decide (mcp.y > tip.y))

/-- The classifier `classifyLetterGesture` (`script.js` lines 90-167) under JavaScript
evaluation semantics: `!landmarks` (absent hand) and `landmarks.length === 0`
return `'?'`; an out-of-range landmark read on the executed path raises.
The B/C-branch reads of `THUMB_TIP` and `INDEX_MCP` are hoisted before the
guards: any execution reaching them has passed `isExtendedE` for the pinky,
whose reads reach index 20, so the hoisted reads (indices 4 and 5) cannot
fail and hoisting preserves the observable result. -/
def classifyLetterGestureE (landmarks : Option (List Landmark)) : Except Unit Symbol :=
  match landmarks with
  | none => Except.ok Symbol.unknown
  | some l =>
    if l.length = 0 then Except.ok Symbol.unknown
    else do
      let thumbExtended ← isExtendedE l Finger.thumb
      let indexExtended ← isExtendedE l Finger.index
      let middleExtended ← isExtendedE l Finger.middle
      let ringExtended ← isExtendedE l Finger.ring
      let pinkyExtended ← isExtendedE l Finger.pinky
      let indexCurled := !indexExtended
      let middleCurled := !middleExtended
      let ringCurled := !ringExtended
      let pinkyCurled := !pinkyExtended
      let allCurled := indexCurled && middleCurled && ringCurled && pinkyCurled
      let fourFingersExtended := indexExtended && middleExtended && ringExtended && pinkyExtended
      let wristPt ← getLm l WRIST
      let pinkyMcpPt ← getLm l PINKY_MCP
      let handSizeSq := distanceSq wristPt pinkyMcpPt
      let indexTipPt ← getLm l INDEX_TIP
      let pinkyTipPt ← getLm l PINKY_TIP
      let tipDistSq := distanceSq indexTipPt pinkyTipPt
      let thumbTipPt ← getLm l THUMB_TIP
      let indexMcpPt ← getLm l INDEX_MCP
      if thumbExtended && indexExtended && middleCurled && ringCurled && pinkyCurled then
        pure Symbol.L
      else
        let pinchSqF := distanceSq thumbTipPt indexTipPt
        if decide (pinchSqF < (0.08 : ℚ) ^ 2) && middleExtended && ringExtended && pinkyExtended then
          pure Symbol.F
        else if fourFingersExtended
            && decide (distanceSq thumbTipPt indexMcpPt < handSizeSq * (0.25 : ℚ) ^ 2) then
          pure Symbol.B
        else if allCurled && decide (tipDistSq > handSizeSq * (0.5 : ℚ) ^ 2)
            && decide (distanceSq thumbTipPt indexMcpPt > handSizeSq * (0.15 : ℚ) ^ 2) then
          pure Symbol.C
        else if allCurled then
          pure Symbol.A
        else
          pure Symbol.unknown

/-- The hand formed by the first 21 entries of a landmark array (meaningful
when the array has at least 21 entries, as `classify_total_behavior`
requires). -/
def handOfList (l : List Landmark) : Hand where
  wrist := l.getD WRIST ⟨0, 0, 0⟩
  thumbCmc := l.getD THUMB_CMC ⟨0, 0, 0⟩
  thumbMcp := l.getD THUMB_MCP ⟨0, 0, 0⟩
  thumbPip := l.getD THUMB_PIP ⟨0, 0, 0⟩
  thumbTip := l.getD THUMB_TIP ⟨0, 0, 0⟩
  indexMcp := l.getD INDEX_MCP ⟨0, 0, 0⟩
  indexPip := l.getD INDEX_PIP ⟨0, 0, 0⟩
  indexDip := l.getD INDEX_DIP ⟨0, 0, 0⟩
  indexTip := l.getD INDEX_TIP ⟨0, 0, 0⟩
  middleMcp := l.getD MIDDLE_MCP ⟨0, 0, 0⟩
  middlePip := l.getD MIDDLE_PIP ⟨0, 0, 0⟩
  middleDip := l.getD MIDDLE_DIP ⟨0, 0, 0⟩
  middleTip := l.getD MIDDLE_TIP ⟨0, 0, 0⟩
  ringMcp := l.getD RING_MCP ⟨0, 0, 0⟩
  ringPip := l.getD RING_PIP ⟨0, 0, 0⟩
  ringDip := l.getD RING_DIP ⟨0, 0, 0⟩
  ringTip := l.getD RING_TIP ⟨0, 0, 0⟩
  pinkyMcp := l.getD PINKY_MCP ⟨0, 0, 0⟩
  pinkyPip := l.getD PINKY_PIP ⟨0, 0, 0⟩
  pinkyDip := l.getD PINKY_DIP ⟨0, 0, 0⟩
  pinkyTip := l.getD PINKY_TIP ⟨0, 0, 0⟩

/-- A concrete arc hand: every non-thumb finger is curled (all y-coordinates
equal, so no tip is strictly above its joints), the index and pinky tips are
2 hand-size units apart, and the thumb tip is half a hand-size unit from the
index MCP. -/
def handArc : Hand where
  wrist := ⟨0, 0, 0⟩
  thumbCmc := ⟨0, 0, 0⟩
  thumbMcp := ⟨0, 0, 0⟩
  thumbPip := ⟨0, 0, 0⟩
  thumbTip := ⟨0.5, 0, 0⟩
  indexMcp := ⟨0, 0, 0⟩
  indexPip := ⟨0, 0, 0⟩
  indexDip := ⟨0, 0, 0⟩
  indexTip := ⟨-1, 0, 0⟩
  middleMcp := ⟨0, 0, 0⟩
  middlePip := ⟨0, 0, 0⟩
  middleDip := ⟨0, 0, 0⟩
  middleTip := ⟨0, 0, 0⟩
  ringMcp := ⟨0, 0, 0⟩
  ringPip := ⟨0, 0, 0⟩
  ringDip := ⟨0, 0, 0⟩
  ringTip := ⟨0, 0, 0⟩
  pinkyMcp := ⟨1, 0, 0⟩
  pinkyPip := ⟨0, 0, 0⟩
  pinkyDip := ⟨0, 0, 0⟩
  pinkyTip := ⟨1, 0, 0⟩

/-- A concrete hand exposing the thumb branch of `isExtended`: the thumb tip
is close to the CMC (so the intended CMC-to-tip versus 1.5 times CMC-to-MCP
ratio test fails by a wide margin) and behind the MCP in depth (so the
intended `tip.z < mcp.z` test fails too), yet in front of the CMC in depth. -/
def handThumbOnly : Hand where
  wrist := ⟨0, 0, 0⟩
  thumbCmc := ⟨0, 0, 1⟩
  thumbMcp := ⟨5, 5, -1⟩
  thumbPip := ⟨0, 0, 0⟩
  thumbTip := ⟨0.1, 0, 0⟩
  indexMcp := ⟨0, 0, 0⟩
  indexPip := ⟨0, 0, 0⟩
  indexDip := ⟨0, 0, 0⟩
  indexTip := ⟨0, 0, 0⟩
  middleMcp := ⟨0, 0, 0⟩
  middlePip := ⟨0, 0, 0⟩
  middleDip := ⟨0, 0, 0⟩
  middleTip := ⟨0, 0, 0⟩
  ringMcp := ⟨0, 0, 0⟩
  ringPip := ⟨0, 0, 0⟩
  ringDip := ⟨0, 0, 0⟩
  ringTip := ⟨0, 0, 0⟩
  pinkyMcp := ⟨0, 0, 0⟩
  pinkyPip := ⟨0, 0, 0⟩
  pinkyDip := ⟨0, 0, 0⟩
  pinkyTip := ⟨0, 0, 0⟩

lemma stabilityInv_initial : StabilityInv initialState := by
  intro h
  simp [initialState] at h

lemma stabilityInv_onResultsHand (st : TranslationState) (sign : Symbol)
    (h : StabilityInv st) : StabilityInv (onResultsHand st sign).1 := by
  unfold onResultsHand
  split
  · next hc =>
    split
    · intro _
      show st.lastSign ≠ Symbol.unknown
      rw [← hc.2]
      exact hc.1
    · intro _
      show st.lastSign ≠ Symbol.unknown
      rw [← hc.2]
      exact hc.1
  · split
    · next hne =>
      intro hpos
      simp at hpos
    · exact h

lemma stabilityInv_onResultsNoHand (st : TranslationState) :
    StabilityInv (onResultsNoHand st).1 := by
  intro hpos
  simp [onResultsNoHand] at hpos

lemma stabilityInv_clearTranslation (st : TranslationState) :
    StabilityInv (clearTranslation st) := by
  intro hpos
  simp [clearTranslation] at hpos

lemma stabilityInv_of_reachable (st : TranslationState) (h : Reachable st) :
    StabilityInv st := by
  induction h with
  | init => exact stabilityInv_initial
  | handStep st sign _ ih => exact stabilityInv_onResultsHand st sign ih
  | noHandStep st _ _ => exact stabilityInv_onResultsNoHand st
  | clearStep st _ => exact stabilityInv_clearTranslation st

lemma onResultsHand_holding (t : List Char) (c : Nat) (sym : Symbol)
    (h : sym ≠ Symbol.unknown) (hc : c + 1 ≠ STABILITY_THRESHOLD) :
    onResultsHand ⟨t, sym, c⟩ sym = (⟨t, sym, c + 1⟩, Status.holding) := by
  unfold onResultsHand
  rw [if_pos ⟨h, rfl⟩, if_neg hc]

lemma onResultsHand_commit (t : List Char) (c : Nat) (sym : Symbol)
    (h : sym ≠ Symbol.unknown) (hc : c + 1 = STABILITY_THRESHOLD) :
    onResultsHand ⟨t, sym, c⟩ sym =
      (⟨t ++ [sym.toChar], sym, 1⟩, Status.committed sym.toChar) := by
  unfold onResultsHand
  rw [if_pos ⟨h, rfl⟩, if_pos hc]

lemma onResultsHand_changed (st : TranslationState) (sym : Symbol)
    (h : sym ≠ st.lastSign) :
    onResultsHand st sym =
      ({ st with lastSign := sym, stabilityCount := 0 }, Status.changed sym) := by
  unfold onResultsHand
  rw [if_neg (fun hc => h hc.2), if_pos h]

lemma runUpdates_cons (st : TranslationState) (s : Symbol) (rest : List Symbol) :
    runUpdates st (s :: rest) =
      ((runUpdates (onResultsHand st s).1 rest).1,
        (onResultsHand st s).2 :: (runUpdates (onResultsHand st s).1 rest).2) := rfl

lemma runUpdates_append (st : TranslationState) (l1 l2 : List Symbol) :
    runUpdates st (l1 ++ l2) =
      ((runUpdates (runUpdates st l1).1 l2).1,
        (runUpdates st l1).2 ++ (runUpdates (runUpdates st l1).1 l2).2) := by
  induction l1 generalizing st with
  | nil => simp [runUpdates]
  | cons s rest ih => simp [runUpdates, ih]

lemma runUpdates_replicate_holding (sym : Symbol) (hsym : sym ≠ Symbol.unknown) :
    ∀ (n c : Nat) (t : List Char), c + n < STABILITY_THRESHOLD →
      runUpdates ⟨t, sym, c⟩ (List.replicate n sym) =
        (⟨t, sym, c + n⟩, List.replicate n Status.holding) := by
  intro n
  induction n with
  | zero =>
    intro c t _
    simp [runUpdates]
  | succ n ih =>
    intro c t hc
    rw [List.replicate_succ]
    have hstep := onResultsHand_holding t c sym hsym (by omega)
    have hrest := ih (c + 1) t (by omega)
    simp only [runUpdates, hstep, hrest]
    rw [List.replicate_succ]
    have h1 : c + 1 + n = c + (n + 1) := by omega
    rw [h1]

/-- C1 counterexample: starting from the initial state, feeding `A` twenty
times produces no `Committed` status at all (the first frame only registers
the sign change), and the transcript stays empty — refuting "exactly one
Committed, on the 20th call". -/
theorem twenty_frames_from_start_no_commit :
    ((runUpdates initialState (List.replicate 20 Symbol.A)).2.countP
        Status.isCommitted) = 0
    ∧ (runUpdates initialState (List.replicate 20 Symbol.A)).1.currentTranslation
        = [] := by
  decide

/-- C1 (amended): starting from the initial tracker state, calling the
update with the same non-`unknown` symbol 21 times consecutively produces
exactly one `Committed` status, occurring on the 21st call (the first call
reports `Changed` and calls 2-20 report `Holding`), with the committed
character equal to that symbol, and the transcript extended by exactly one
character. -/
theorem commit_on_frame_21 (sym : Symbol) (hsym : sym ≠ Symbol.unknown) :
    (runUpdates initialState (List.replicate 21 sym)).2 =
      Status.changed sym ::
        (List.replicate 19 Status.holding ++ [Status.committed sym.toChar])
    ∧ (runUpdates initialState (List.replicate 21 sym)).1 =
      ⟨[sym.toChar], sym, 1⟩ := by
  have h0 : sym ≠ initialState.lastSign := hsym
  have hstep1 : onResultsHand initialState sym = (⟨[], sym, 0⟩, Status.changed sym) := by
    rw [onResultsHand_changed initialState sym h0]
    rfl
  have hl : List.replicate 21 sym = sym :: (List.replicate 19 sym ++ [sym]) := rfl
  have hhold : runUpdates ⟨[], sym, 0⟩ (List.replicate 19 sym)
      = (⟨[], sym, 19⟩, List.replicate 19 Status.holding) := by
    simpa using runUpdates_replicate_holding sym hsym 19 0 []
      (by norm_num [STABILITY_THRESHOLD])
  have hcommit : onResultsHand ⟨[], sym, 19⟩ sym
      = (⟨[sym.toChar], sym, 1⟩, Status.committed sym.toChar) :=
    onResultsHand_commit [] 19 sym hsym rfl
  rw [hl, runUpdates_cons, hstep1]
  dsimp only
  rw [runUpdates_append, hhold]
  dsimp only
  rw [runUpdates_cons, hcommit]
  exact ⟨rfl, rfl⟩

/-- C1 witness: instantiating the amended statement at the symbol `B`. -/
theorem commit_on_frame_21_witness :
    Symbol.B ≠ Symbol.unknown
    ∧ ((runUpdates initialState (List.replicate 21 Symbol.B)).2 =
        Status.changed Symbol.B ::
          (List.replicate 19 Status.holding ++ [Status.committed 'B'])
      ∧ (runUpdates initialState (List.replicate 21 Symbol.B)).1 =
        ⟨['B'], Symbol.B, 1⟩) :=
  ⟨by decide, commit_on_frame_21 Symbol.B (by decide)⟩

/-- C2 counterexample: holding `A` for 40 consecutive frames from the initial
state yields two `Committed` statuses (frames 21 and 40) — refuting "after a
commit fires, continuing to feed that same symbol never produces another
commit". -/
theorem forty_frames_two_commits :
    ((runUpdates initialState (List.replicate 40 Symbol.A)).2.countP
        Status.isCommitted) = 2 := by
  decide

/-- C2 (amended): immediately after a commit of a symbol the counter is
pinned to 1 (not 0), so continuing to feed that same symbol produces no
commit for 18 calls and then a second commit on the 19th call — a sustained
hold re-commits every 19 frames rather than committing exactly once. -/
theorem recommit_after_19_frames (sym : Symbol) (t : List Char)
    (hsym : sym ≠ Symbol.unknown) :
    runUpdates ⟨t, sym, 1⟩ (List.replicate 19 sym) =
      (⟨t ++ [sym.toChar], sym, 1⟩,
        List.replicate 18 Status.holding ++ [Status.committed sym.toChar]) := by
  have hl : List.replicate 19 sym = List.replicate 18 sym ++ [sym] := rfl
  have hhold : runUpdates ⟨t, sym, 1⟩ (List.replicate 18 sym)
      = (⟨t, sym, 19⟩, List.replicate 18 Status.holding) := by
    simpa using runUpdates_replicate_holding sym hsym 18 1 t
      (by norm_num [STABILITY_THRESHOLD])
  have hcommit : onResultsHand ⟨t, sym, 19⟩ sym
      = (⟨t ++ [sym.toChar], sym, 1⟩, Status.committed sym.toChar) :=
    onResultsHand_commit t 19 sym hsym rfl
  rw [hl, runUpdates_append, hhold]
  dsimp only
  rw [runUpdates_cons, hcommit]
  rfl

/-- C2 witness: instantiating the amended statement at symbol `A` with
transcript `['A']` (the state right after the first commit of `A`). -/
theorem recommit_after_19_frames_witness :
    Symbol.A ≠ Symbol.unknown
    ∧ runUpdates ⟨['A'], Symbol.A, 1⟩ (List.replicate 19 Symbol.A) =
        (⟨['A', 'A'], Symbol.A, 1⟩,
          List.replicate 18 Status.holding ++ [Status.committed 'A']) :=
  ⟨by decide, recommit_after_19_frames Symbol.A ['A'] (by decide)⟩

/-- C6: at any reachable state, observing `unknown` — whether because a
present hand classifies as `'?'` or because no hand is detected — leaves the
state with `lastSign = unknown` and `stabilityCount = 0`, emits no commit,
and does not change the transcript. -/
theorem unknown_observation_resets (st : TranslationState) (h : Reachable st) :
    ((onResultsHand st Symbol.unknown).1.lastSign = Symbol.unknown
      ∧ (onResultsHand st Symbol.unknown).1.stabilityCount = 0
      ∧ (onResultsHand st Symbol.unknown).1.currentTranslation = st.currentTranslation
      ∧ (onResultsHand st Symbol.unknown).2.isCommitted = false)
    ∧ ((onResultsNoHand st).1.lastSign = Symbol.unknown
      ∧ (onResultsNoHand st).1.stabilityCount = 0
      ∧ (onResultsNoHand st).1.currentTranslation = st.currentTranslation
      ∧ (onResultsNoHand st).2.isCommitted = false) := by
  have hinv := stabilityInv_of_reachable st h
  constructor
  · by_cases hl : st.lastSign = Symbol.unknown
    · have hid : onResultsHand st Symbol.unknown = (st, Status.idle) := by
        unfold onResultsHand
        rw [if_neg (fun hc => hc.1 rfl), if_neg (fun hne => hne hl.symm)]
      rw [hid]
      refine ⟨hl, ?_, rfl, rfl⟩
      by_contra hne
      exact hinv (Nat.pos_of_ne_zero hne) hl
    · rw [onResultsHand_changed st Symbol.unknown (fun he => hl he.symm)]
      exact ⟨rfl, rfl, rfl, rfl⟩
  · exact ⟨rfl, rfl, rfl, rfl⟩

/-- C6 witness: the conclusion instantiated at the (reachable) initial
state. -/
theorem unknown_observation_resets_witness :
    Reachable initialState
    ∧ (((onResultsHand initialState Symbol.unknown).1.lastSign = Symbol.unknown
      ∧ (onResultsHand initialState Symbol.unknown).1.stabilityCount = 0
      ∧ (onResultsHand initialState Symbol.unknown).1.currentTranslation
          = initialState.currentTranslation
      ∧ (onResultsHand initialState Symbol.unknown).2.isCommitted = false)
    ∧ ((onResultsNoHand initialState).1.lastSign = Symbol.unknown
      ∧ (onResultsNoHand initialState).1.stabilityCount = 0
      ∧ (onResultsNoHand initialState).1.currentTranslation
          = initialState.currentTranslation
      ∧ (onResultsNoHand initialState).2.isCommitted = false)) :=
  ⟨Reachable.init, unknown_observation_resets initialState Reachable.init⟩

/-- C7: every hand-present update either leaves the transcript unchanged
(with no commit reported) or appends exactly the committed character (with a
commit reported); a no-hand frame never touches the transcript; and
`clearTranslation` — the explicit reset — empties it. -/
theorem transcript_growth (st : TranslationState) (sign : Symbol) :
    (((onResultsHand st sign).2 = Status.committed sign.toChar
        ∧ (onResultsHand st sign).1.currentTranslation
            = st.currentTranslation ++ [sign.toChar])
      ∨ ((onResultsHand st sign).2.isCommitted = false
        ∧ (onResultsHand st sign).1.currentTranslation = st.currentTranslation))
    ∧ (onResultsNoHand st).1.currentTranslation = st.currentTranslation
    ∧ (clearTranslation st).currentTranslation = [] := by
  refine ⟨?_, rfl, rfl⟩
  unfold onResultsHand
  split
  · split
    · left
      exact ⟨rfl, rfl⟩
    · right
      exact ⟨rfl, rfl⟩
  · split
    · right
      exact ⟨rfl, rfl⟩
    · right
      exact ⟨rfl, rfl⟩

/-- C8: `clearTranslation` always yields the state with empty transcript,
`lastSign = unknown` and `stabilityCount = 0`, whatever the prior state, and
it is idempotent. -/
theorem clearTranslation_resets_and_idempotent (st : TranslationState) :
    clearTranslation st = ⟨[], Symbol.unknown, 0⟩
    ∧ clearTranslation (clearTranslation st) = clearTranslation st :=
  ⟨rfl, rfl⟩

/-- C9: when the observed symbol is non-`unknown`, equals `lastSign`, and the
incremented streak counter is still below the threshold of 20, the update
reports `Holding` and the transcript is unchanged. -/
theorem holding_below_threshold (st : TranslationState) (sign : Symbol)
    (h1 : sign ≠ Symbol.unknown) (h2 : sign = st.lastSign)
    (h3 : st.stabilityCount + 1 < STABILITY_THRESHOLD) :
    (onResultsHand st sign).2 = Status.holding
    ∧ (onResultsHand st sign).1.currentTranslation = st.currentTranslation := by
  unfold onResultsHand
  rw [if_pos ⟨h1, h2⟩, if_neg (by omega)]
  exact ⟨rfl, rfl⟩

/-- C9 witness: the statement instantiated at the state `⟨[], A, 3⟩` and
observation `A`. -/
theorem holding_below_threshold_witness :
    (Symbol.A ≠ Symbol.unknown
      ∧ Symbol.A = (⟨[], Symbol.A, 3⟩ : TranslationState).lastSign
      ∧ (⟨[], Symbol.A, 3⟩ : TranslationState).stabilityCount + 1
          < STABILITY_THRESHOLD)
    ∧ ((onResultsHand ⟨[], Symbol.A, 3⟩ Symbol.A).2 = Status.holding
      ∧ (onResultsHand ⟨[], Symbol.A, 3⟩ Symbol.A).1.currentTranslation = []) :=
  ⟨⟨by decide, by decide, by decide⟩,
    holding_below_threshold ⟨[], Symbol.A, 3⟩ Symbol.A
      (by decide) (by decide) (by decide)⟩

/-- C10: the debounce invariant — a positive streak counter implies the last
sign is not `unknown` — holds at the initial state and is preserved by every
hand-present update, every no-hand frame, and `clearTranslation`. -/
theorem stability_invariant_preserved :
    StabilityInv initialState
    ∧ (∀ (st : TranslationState) (sign : Symbol),
        StabilityInv st → StabilityInv (onResultsHand st sign).1)
    ∧ (∀ st : TranslationState, StabilityInv st → StabilityInv (onResultsNoHand st).1)
    ∧ (∀ st : TranslationState, StabilityInv st → StabilityInv (clearTranslation st)) :=
  ⟨stabilityInv_initial,
    stabilityInv_onResultsHand,
    fun st _ => stabilityInv_onResultsNoHand st,
    fun st _ => stabilityInv_clearTranslation st⟩

/-- C10 witness: the preservation step applied at the initial state with
observation `A`. -/
theorem stability_invariant_preserved_witness :
    StabilityInv (onResultsHand initialState Symbol.A).1 :=
  stability_invariant_preserved.2.1 initialState Symbol.A
    (fun h => absurd h (lt_irrefl 0))

lemma distanceSq_nonneg (p q : Landmark) : 0 ≤ distanceSq p q := by
  unfold distanceSq
  positivity

/-- Comparing the source's real-valued distances,
`distance p q * k < distance r s` (for a nonnegative constant `k`), is the
same as comparing the squared distances against the squared constant. -/
lemma mul_distanceR_lt_distanceR (p q r s : Landmark) (k : ℚ) (hk : 0 ≤ k) :
    distanceR p q * (k : ℝ) < distanceR r s ↔
      distanceSq p q * k ^ 2 < distanceSq r s := by
  unfold distanceR
  rw [← Real.sqrt_sq (x := (k : ℝ)) (by exact_mod_cast hk)]
  rw [← Real.sqrt_mul (by exact_mod_cast distanceSq_nonneg p q)]
  rw [Real.sqrt_lt_sqrt_iff (by
    have h1 : (0 : ℝ) ≤ (distanceSq p q : ℚ) := by exact_mod_cast distanceSq_nonneg p q
    positivity)]
  constructor
  · intro hlt
    exact_mod_cast hlt
  · intro hlt
    exact_mod_cast hlt

/-- Comparing a real-valued distance with a nonnegative constant is the same
as comparing the squared distance with the squared constant (this justifies
the squared form of the F rule's absolute `0.08` pinch threshold). -/
lemma distanceR_lt_const (p q : Landmark) (c : ℚ) (hc : 0 ≤ c) :
    distanceR p q < (c : ℝ) ↔ distanceSq p q < c ^ 2 := by
  unfold distanceR
  rw [← Real.sqrt_sq (x := (c : ℝ)) (by exact_mod_cast hc)]
  rw [Real.sqrt_lt_sqrt_iff (by exact_mod_cast distanceSq_nonneg p q)]
  constructor
  · intro hlt
    exact_mod_cast hlt
  · intro hlt
    exact_mod_cast hlt

lemma getLm_ok (l : List Landmark) (i : Nat) (h : i < l.length) :
    getLm l i = Except.ok (l.getD i ⟨0, 0, 0⟩) := by
  unfold getLm
  rw [List.getElem?_eq_getElem h, List.getD_eq_getElem?_getD,
    List.getElem?_eq_getElem h]
  rfl

lemma getLm_err (l : List Landmark) (i : Nat) (h : l.length ≤ i) :
    getLm l i = Except.error () := by
  unfold getLm
  rw [List.getElem?_eq_none h]

lemma isExtendedE_ok (l : List Landmark) (hl : 21 ≤ l.length) (f : Finger) :
    isExtendedE l f = Except.ok (isExtended (handOfList l) f) := by
  have g : ∀ i : Nat, i < 21 → getLm l i = Except.ok (l.getD i ⟨0, 0, 0⟩) :=
    fun i hi => getLm_ok l i (lt_of_lt_of_le hi hl)
  cases f <;>
    simp [isExtendedE, isExtended, fingerIndices, fingerLandmarks, handOfList,
      g THUMB_CMC (by norm_num [THUMB_CMC]), g THUMB_MCP (by norm_num [THUMB_MCP]),
      g THUMB_PIP (by norm_num [THUMB_PIP]), g THUMB_TIP (by norm_num [THUMB_TIP]),
      g INDEX_MCP (by norm_num [INDEX_MCP]), g INDEX_PIP (by norm_num [INDEX_PIP]),
      g INDEX_TIP (by norm_num [INDEX_TIP]),
      g MIDDLE_MCP (by norm_num [MIDDLE_MCP]), g MIDDLE_PIP (by norm_num [MIDDLE_PIP]),
      g MIDDLE_TIP (by norm_num [MIDDLE_TIP]),
      g RING_MCP (by norm_num [RING_MCP]), g RING_PIP (by norm_num [RING_PIP]),
      g RING_TIP (by norm_num [RING_TIP]),
      g PINKY_MCP (by norm_num [PINKY_MCP]), g PINKY_PIP (by norm_num [PINKY_PIP]),
      g PINKY_TIP (by norm_num [PINKY_TIP])] <;>
    rfl

lemma isExtendedE_pinky_err (l : List Landmark) (hl : l.length < 21) :
    isExtendedE l Finger.pinky = Except.error () := by
  have h20 : getLm l PINKY_TIP = Except.error () :=
    getLm_err l PINKY_TIP (by simp only [PINKY_TIP]; omega)
  cases h17 : getLm l PINKY_MCP with
  | error e =>
    cases e
    simp only [isExtendedE, fingerIndices]
    rw [h17]
    rfl
  | ok p =>
    cases h18 : getLm l PINKY_PIP with
    | error e =>
      cases e
      simp only [isExtendedE, fingerIndices]
      rw [h17, h18]
      rfl
    | ok q =>
      simp only [isExtendedE, fingerIndices]
      rw [h17, h18, h20]
      rfl

lemma classifyE_err (l : List Landmark) (h0 : l.length ≠ 0) (hl : l.length < 21) :
    classifyLetterGestureE (some l) = Except.error () := by
  have hp := isExtendedE_pinky_err l hl
  have hcases : ∀ x : Except Unit Bool, x = Except.error () ∨ ∃ b, x = Except.ok b := by
    intro x
    cases x with
    | error e =>
      cases e
      exact Or.inl rfl
    | ok b => exact Or.inr ⟨b, rfl⟩
  simp only [classifyLetterGestureE, if_neg h0]
  rcases hcases (isExtendedE l Finger.thumb) with h1 | ⟨b1, h1⟩ <;>
    rcases hcases (isExtendedE l Finger.index) with h2 | ⟨b2, h2⟩ <;>
      rcases hcases (isExtendedE l Finger.middle) with h3 | ⟨b3, h3⟩ <;>
        rcases hcases (isExtendedE l Finger.ring) with h4 | ⟨b4, h4⟩ <;>
          rw [h1, h2, h3, h4, hp] <;>
            rfl

lemma exceptOk_bind {α β : Type} (a : α) (f : α → Except Unit β) :
    (Except.ok a : Except Unit α) >>= f = f a := rfl

lemma exceptPure_eq {α : Type} (a : α) :
    (pure a : Except Unit α) = Except.ok a := rfl

set_option maxRecDepth 100000 in
lemma classifyE_ok (l : List Landmark) (hl : 21 ≤ l.length) :
    classifyLetterGestureE (some l) = Except.ok (classifyLetterGesture (handOfList l)) := by
  have g : ∀ i : Nat, i < 21 → getLm l i = Except.ok (l.getD i ⟨0, 0, 0⟩) :=
    fun i hi => getLm_ok l i (lt_of_lt_of_le hi hl)
  have h0 : l.length ≠ 0 := by omega
  simp only [classifyLetterGestureE, if_neg h0]
  rw [isExtendedE_ok l hl Finger.thumb, isExtendedE_ok l hl Finger.index,
    isExtendedE_ok l hl Finger.middle, isExtendedE_ok l hl Finger.ring,
    isExtendedE_ok l hl Finger.pinky,
    g WRIST (by norm_num [WRIST]), g PINKY_MCP (by norm_num [PINKY_MCP]),
    g INDEX_TIP (by norm_num [INDEX_TIP]), g PINKY_TIP (by norm_num [PINKY_TIP]),
    g THUMB_TIP (by norm_num [THUMB_TIP]), g INDEX_MCP (by norm_num [INDEX_MCP])]
  simp only [exceptOk_bind, exceptPure_eq, classifyLetterGesture, handOfList,
    apply_ite (Except.ok : Symbol → Except Unit Symbol)]

/-- C3 (amended): the classifier is total only for an absent hand and for an
empty landmark array, where it returns `unknown` without raising; for every
non-empty landmark array with fewer than 21 entries it raises (a TypeError
from reading a property of `undefined`) instead of returning `unknown`; and
an array with 21 or more entries is classified normally from its first 21
landmarks. -/
theorem classify_total_behavior (landmarks : Option (List Landmark)) :
    classifyLetterGestureE landmarks =
      match landmarks with
      | none => Except.ok Symbol.unknown
      | some l =>
        if l.length = 0 then Except.ok Symbol.unknown
        else if 21 ≤ l.length then Except.ok (classifyLetterGesture (handOfList l))
        else Except.error () := by
  match landmarks with
  | none => rfl
  | some l =>
    by_cases h0 : l.length = 0
    · simp [classifyLetterGestureE, h0]
    · by_cases h21 : 21 ≤ l.length
      · rw [classifyE_ok l h21]
        simp [h0, h21]
      · rw [classifyE_err l h0 (by omega)]
        simp [h0, h21]

/-- C3 counterexample: a malformed input — a single-landmark array — makes
the classifier raise rather than return `unknown`. -/
theorem classify_raises_on_short_list :
    classifyLetterGestureE (some [⟨0, 0, 0⟩]) = Except.error () :=
  classifyE_err [⟨0, 0, 0⟩] (by simp) (by simp)

/-- For the four non-thumb fingers, `isExtended` computes exactly the
specified test: the tip's y strictly below both the PIP's y and the MCP's y
(the code diverges from the specification only in the thumb case). -/
lemma isExtended_nonThumb_spec (h : Hand) (f : Finger) (hf : f ≠ Finger.thumb) :
    isExtended h f = true ↔
      ((fingerLandmarks h f).2.2.2.y < (fingerLandmarks h f).2.1.y
        ∧ (fingerLandmarks h f).2.2.2.y < (fingerLandmarks h f).1.y) := by
  cases f with
  | thumb => exact absurd rfl hf
  | index => simp [isExtended, fingerLandmarks]
  | middle => simp [isExtended, fingerLandmarks]
  | ring => simp [isExtended, fingerLandmarks]
  | pinky => simp [isExtended, fingerLandmarks]

/-- C4: for every hand whose four non-thumb fingers are all curled, the
classifier returns `C` exactly when the index-to-pinky tip spread exceeds
half the hand size and the thumb-tip-to-index-MCP distance exceeds 0.15
times the hand size (distances being the source's real square-rooted
distances), and returns `A` — never `unknown` — whenever either condition
fails. -/
theorem classify_c_or_a_when_curled (h : Hand)
    (hi : isExtended h Finger.index = false)
    (hm : isExtended h Finger.middle = false)
    (hr : isExtended h Finger.ring = false)
    (hp : isExtended h Finger.pinky = false) :
    (classifyLetterGesture h = Symbol.C ↔
      (distanceR h.indexTip h.pinkyTip > distanceR h.wrist h.pinkyMcp * 0.5
        ∧ distanceR h.thumbTip h.indexMcp > distanceR h.wrist h.pinkyMcp * 0.15))
    ∧ (¬ (distanceR h.indexTip h.pinkyTip > distanceR h.wrist h.pinkyMcp * 0.5
        ∧ distanceR h.thumbTip h.indexMcp > distanceR h.wrist h.pinkyMcp * 0.15)
      → classifyLetterGesture h = Symbol.A) := by
  have e1 : distanceR h.indexTip h.pinkyTip > distanceR h.wrist h.pinkyMcp * 0.5 ↔
      distanceSq h.wrist h.pinkyMcp * (0.5 : ℚ) ^ 2 < distanceSq h.indexTip h.pinkyTip := by
    rw [show (0.5 : ℝ) = ((0.5 : ℚ) : ℝ) by norm_num]
    exact mul_distanceR_lt_distanceR h.wrist h.pinkyMcp h.indexTip h.pinkyTip 0.5
      (by norm_num)
  have e2 : distanceR h.thumbTip h.indexMcp > distanceR h.wrist h.pinkyMcp * 0.15 ↔
      distanceSq h.wrist h.pinkyMcp * (0.15 : ℚ) ^ 2 < distanceSq h.thumbTip h.indexMcp := by
    rw [show (0.15 : ℝ) = ((0.15 : ℚ) : ℝ) by norm_num]
    exact mul_distanceR_lt_distanceR h.wrist h.pinkyMcp h.thumbTip h.indexMcp 0.15
      (by norm_num)
  have key : classifyLetterGesture h =
      if (distanceSq h.wrist h.pinkyMcp * (0.5 : ℚ) ^ 2 < distanceSq h.indexTip h.pinkyTip
          ∧ distanceSq h.wrist h.pinkyMcp * (0.15 : ℚ) ^ 2 < distanceSq h.thumbTip h.indexMcp)
        then Symbol.C else Symbol.A := by
    simp [classifyLetterGesture, hi, hm, hr, hp]
  by_cases hc : distanceSq h.wrist h.pinkyMcp * (0.5 : ℚ) ^ 2 < distanceSq h.indexTip h.pinkyTip
      ∧ distanceSq h.wrist h.pinkyMcp * (0.15 : ℚ) ^ 2 < distanceSq h.thumbTip h.indexMcp
  · rw [key, if_pos hc]
    exact ⟨⟨fun _ => ⟨e1.mpr hc.1, e2.mpr hc.2⟩, fun _ => rfl⟩,
      fun hn => absurd ⟨e1.mpr hc.1, e2.mpr hc.2⟩ hn⟩
  · rw [key, if_neg hc]
    exact ⟨⟨fun hAC => absurd hAC (by decide),
      fun hcond => absurd ⟨e1.mp hcond.1, e2.mp hcond.2⟩ hc⟩, fun _ => rfl⟩

/-- C4 witness: the statement instantiated at the concrete arc hand, whose
four non-thumb fingers are curled. -/
theorem classify_c_or_a_when_curled_witness :
    (isExtended handArc Finger.index = false
      ∧ isExtended handArc Finger.middle = false
      ∧ isExtended handArc Finger.ring = false
      ∧ isExtended handArc Finger.pinky = false)
    ∧ ((classifyLetterGesture handArc = Symbol.C ↔
        (distanceR handArc.indexTip handArc.pinkyTip
            > distanceR handArc.wrist handArc.pinkyMcp * 0.5
          ∧ distanceR handArc.thumbTip handArc.indexMcp
            > distanceR handArc.wrist handArc.pinkyMcp * 0.15))
      ∧ (¬ (distanceR handArc.indexTip handArc.pinkyTip
            > distanceR handArc.wrist handArc.pinkyMcp * 0.5
          ∧ distanceR handArc.thumbTip handArc.indexMcp
            > distanceR handArc.wrist handArc.pinkyMcp * 0.15)
        → classifyLetterGesture handArc = Symbol.A)) :=
  ⟨⟨by with_unfolding_all rfl, by with_unfolding_all rfl,
    by with_unfolding_all rfl, by with_unfolding_all rfl⟩,
    classify_c_or_a_when_curled handArc (by with_unfolding_all rfl)
      (by with_unfolding_all rfl) (by with_unfolding_all rfl)
      (by with_unfolding_all rfl)⟩

/-- C5: the thumb case of `isExtended` does not compute the specified test.
At `handThumbOnly` the code reports the thumb extended, yet the claimed test
— `distance(cmc, tip) > 1.5 * distance(cmc, mcp)` together with
`tip.z < mcp.z` — fails on both conjuncts: the code's local `mcp` variable
holds the CMC landmark (THUMB[0] is `THUMB_CMC`), so the code in fact
compares `distance(cmc, tip)` against `1.5 * distance(cmc, cmc) = 0` and
`tip.z` against the CMC's z. -/
theorem isExtended_thumb_diverges :
    isExtended handThumbOnly Finger.thumb = true
    ∧ ¬ (distanceR handThumbOnly.thumbCmc handThumbOnly.thumbTip
          > distanceR handThumbOnly.thumbCmc handThumbOnly.thumbMcp * 1.5)
    ∧ ¬ (handThumbOnly.thumbTip.z < handThumbOnly.thumbMcp.z) := by
  refine ⟨by with_unfolding_all rfl, ?_, ?_⟩
  · intro hcon
    rw [gt_iff_lt, show (1.5 : ℝ) = ((1.5 : ℚ) : ℝ) by norm_num,
      mul_distanceR_lt_distanceR handThumbOnly.thumbCmc handThumbOnly.thumbMcp
        handThumbOnly.thumbCmc handThumbOnly.thumbTip 1.5 (by norm_num)] at hcon
    revert hcon
    exact of_decide_eq_false (by with_unfolding_all rfl)
  · exact of_decide_eq_false (by with_unfolding_all rfl)

end HandSign
